import Mathlib

/-!
Verification of the PlagiFreeAi backend core (`backend/server.py`).

The development shallowly embeds the usage-accounting and entitlement core of
the service: the similarity scorer (`calculate_plagiarism_percentage`), the
sentence diff extractor (`get_changed_sentences`), the entitlement ledger
(reset rule, availability check, debit rule inside the `rewrite` endpoint,
and the reset blocks of `login` / `get_usage`), and the payment-status
crediting flow (`get_payment_status`).

Modelling conventions:
* Python `str` is modelled as `List Char` (`Str`).  `str.lower()` is
  `Char.toLower` mapped over the list (ASCII case folding; the source only
  relies on it for tokens and sentence fragments), `str.split()` /
  `str.split('.')` / `str.strip()` are embedded below.
* Python `int` is `ℤ`; Python `float` arithmetic in the scorer is idealised
  as exact rational arithmetic `ℚ`, with `round(x, 1)` embedded as
  round-half-to-even at one decimal place (CPython's rounding mode).
* Timestamps (`datetime` values, always `timezone.utc` in the source) are
  microseconds since the epoch (`ℕ`); `timedelta(days=1)` and
  `.replace(hour=0, minute=0, second=0)` (which keeps the microsecond
  field) are embedded arithmetically.
* Each endpoint is a pure function from the request data, the outcome of
  its external collaborator call, and the relevant database slice to a
  result together with the updated database slice; a raised `HTTPException`
  is an `ApiError` value.  UUID generation is not modelled (ids carried in
  documents are irrelevant to the verified properties).
-/

namespace PlagiFree

/-- Python `str`, as a list of characters. -/
abbrev Str := List Char

/-- Python `str.lower()` (ASCII case folding). -/
def toLower (s : Str) : Str := s.map Char.toLower

/-- Split a string at every character satisfying `p`, keeping empty
fragments — the semantics of Python `str.split(sep)` for a one-character
separator (with `p` the equality test), and the building block for the
no-argument `str.split()`.  The result is always nonempty. -/
def splitAll (p : Char → Bool) : Str → List Str
  | [] => [[]]
  | c :: cs =>
    if p c then [] :: splitAll p cs
    else
      match splitAll p cs with
      | [] => [[c]]
      | t :: ts => (c :: t) :: ts

/-- Python `str.split()` with no argument: split on whitespace and drop the
empty fragments. -/
def pySplitWs (s : Str) : List Str :=
  (splitAll Char.isWhitespace s).filter (fun w => w ≠ [])

/-- Python `str.strip()`: drop leading and trailing whitespace. -/
def strip (s : Str) : Str :=
  ((s.dropWhile Char.isWhitespace).reverse.dropWhile Char.isWhitespace).reverse

/-- CPython `round(x, 1)`: round to one decimal place, ties to even
(idealised over exact rationals). -/
def pyRound1 (x : ℚ) : ℚ :=
  let y := 10 * x
  let f := ⌊y⌋
  let r := y - (f : ℚ)
  let n : ℤ :=
    if r < 1 / 2 then f
    else if 1 / 2 < r then f + 1
    else if 2 ∣ f then f else f + 1
  (n : ℚ) / 10

/-- The set of distinct lower-cased whitespace-separated words of a text:
`set(text.lower().split())` in `calculate_plagiarism_percentage`
(server.py lines 189-190). -/
def wordSet (s : Str) : Finset Str :=
  (pySplitWs (toLower s)).toFinset

/-- `calculate_plagiarism_percentage` (server.py lines 187-200): uniqueness
percentage between original and rewritten text. -/
def calculate_plagiarism_percentage (original rewritten : Str) : ℚ :=
  let original_words := wordSet original
  let rewritten_words := wordSet rewritten
  if original_words = ∅ then 0
  else
    let common_words := original_words ∩ rewritten_words
    let similarity : ℚ := (common_words.card : ℚ) / (original_words.card : ℚ) * 100
    let uniqueness : ℚ := 100 - similarity
    pyRound1 (max 0 (min 100 uniqueness))

/-- One entry of the list returned by `get_changed_sentences`
(server.py lines 215-219). -/
structure ChangedPair where
  original : Str
  rewritten : Str
  type : Str
  deriving Repr, DecidableEq

/-- `[s.strip() for s in text.split('.') if s.strip()]`
(server.py lines 204-205): period-separated, trimmed, nonempty sentence
fragments in order. -/
def sentences (s : Str) : List Str :=
  ((splitAll (fun c => c = '.') s).map strip).filter (fun t => t ≠ [])

/-- `get_changed_sentences` (server.py lines 202-221): position-aligned
changed sentence pairs.  The loop over `range(max_len)` with the
out-of-range default `""` and the Python truthiness test
`original_sent and rewritten_sent and original_sent.lower() != rewritten_sent.lower()`
is embedded directly. -/
def get_changed_sentences (original rewritten : Str) : List ChangedPair :=
  let original_sentences := sentences original
  let rewritten_sentences := sentences rewritten
  let max_len := max original_sentences.length rewritten_sentences.length
  (List.range max_len).filterMap (fun i =>
    let original_sent := original_sentences.getD i []
    let rewritten_sent := rewritten_sentences.getD i []
    if original_sent ≠ [] ∧ rewritten_sent ≠ [] ∧
        toLower original_sent ≠ toLower rewritten_sent then
      some ⟨original_sent, rewritten_sent, "changed".toList⟩
    else none)

/-! ### Time and the quota reset rule -/

/-- Timestamps: microseconds since the Unix epoch, UTC. -/
abbrev Time := ℕ

def usPerSecond : ℕ := 1000000

def usPerDay : ℕ := 86400 * 1000000

/-- `(datetime.now(timezone.utc) + timedelta(days=1)).replace(hour=0, minute=0, second=0)`
(server.py lines 419, 472, 583): advance one day, zero the hour, minute and
second fields, keep the microsecond field. -/
def nextResetDate (now : Time) : Time :=
  (now / usPerDay + 1) * usPerDay + now % usPerSecond

/-- The per-account entitlement-ledger fields of a `users` document
(server.py lines 429-442). -/
structure UserDoc where
  daily_limit : ℤ
  rewrites_today : ℤ
  credits : ℤ
  reset_date : Time
  deriving Repr, DecidableEq

/-- The reset block repeated in `login` (server.py lines 470-478) and
`get_usage` (lines 581-589): if the current time has reached `reset_date`,
zero `rewrites_today` and advance `reset_date` to the next midnight
boundary computed from now. -/
def applyReset (now : Time) (u : UserDoc) : UserDoc :=
  if u.reset_date ≤ now then
    { u with rewrites_today := 0, reset_date := nextResetDate now }
  else u

/-- The response shape of the `/usage` endpoint (server.py lines 134-139). -/
structure UsageResponse where
  daily_limit : ℤ
  rewrites_today : ℤ
  remaining : ℤ
  credits : ℤ
  reset_date : Time
  deriving Repr, DecidableEq

/-- `get_usage` (server.py lines 579-597): apply the reset rule, persist it,
then compose the usage summary from the refreshed document. -/
def get_usage (now : Time) (u₀ : UserDoc) : UsageResponse × UserDoc :=
  let u := applyReset now u₀
  ({ daily_limit := u.daily_limit
     rewrites_today := u.rewrites_today
     remaining := u.daily_limit - u.rewrites_today
     credits := u.credits
     reset_date := u.reset_date }, u)

/-! ### The rewrite orchestrator -/

/-- The `HTTPException`s raised on the paths modelled here:
`quotaExceeded` is the 429 of server.py line 502, `invalidMode` and
`invalidTone` the 400s of lines 511 and 513, `upstreamFailure` the 500 of
line 287 (`rewrite_text_with_ai`), `unauthorized` the 401s of the token
helpers (lines 170-172). -/
inductive ApiError where
  | quotaExceeded
  | invalidMode
  | invalidTone
  | upstreamFailure
  | unauthorized
  deriving Repr, DecidableEq

/-- The HTTP status code attached to each modelled error. -/
def statusCode : ApiError → ℕ
  | .quotaExceeded => 429
  | .invalidMode => 400
  | .invalidTone => 400
  | .upstreamFailure => 500
  | .unauthorized => 401

/-- `valid_modes` (server.py line 507). -/
def valid_modes : List Str :=
  ["light".toList, "standard".toList, "aggressive".toList, "human-like".toList]

/-- `valid_tones` (server.py line 508). -/
def valid_tones : List Str :=
  ["academic".toList, "professional".toList, "casual".toList,
   "creative".toList, "formal".toList]

/-- The `detail` string of the two validation `HTTPException`s
(server.py lines 511 and 513), built with the joined list of allowed
values; the other errors carry the fixed details of lines 502 and 287. -/
def errorDetail : ApiError → Str
  | .quotaExceeded => "No rewrites remaining. Purchase credits to continue.".toList
  | .invalidMode =>
      "Invalid mode. Choose from: ".toList ++
        (valid_modes.intersperse ", ".toList).flatten
  | .invalidTone =>
      "Invalid tone. Choose from: ".toList ++
        (valid_tones.intersperse ", ".toList).flatten
  | .upstreamFailure => "AI rewriting failed".toList
  | .unauthorized => "Invalid token".toList

/-- The body of a `/rewrite` request (server.py lines 105-108). -/
structure RewriteRequest where
  text : Str
  mode : Str
  tone : Str
  deriving Repr, DecidableEq

/-- A `rewrite_history` document (server.py lines 531-542; the generated
UUID `id` and the `user_id` foreign key are not modelled). -/
structure HistoryDoc where
  original_text : Str
  rewritten_text : Str
  mode : Str
  tone : Str
  original_word_count : ℕ
  rewritten_word_count : ℕ
  plagiarism_percentage : ℚ
  timestamp : Time
  deriving Repr, DecidableEq

/-- The response of a successful `/rewrite` (server.py lines 558-568;
the generated UUID `id` is not modelled). -/
structure RewriteResponse where
  rewritten_text : Str
  original_word_count : ℕ
  rewritten_word_count : ℕ
  mode : Str
  tone : Str
  timestamp : Time
  plagiarism_percentage : ℚ
  changed_sentences : List ChangedPair
  deriving Repr, DecidableEq

/-- The database slice a `/rewrite` request touches: the requesting user's
document and that user's rewrite-history records (in insertion order). -/
structure DB where
  user : UserDoc
  rewrite_history : List HistoryDoc
  deriving Repr, DecidableEq

/-- `rewrite` (server.py lines 495-568).  `now` is the current time;
`aiResult` is the outcome of the awaited external call
`rewrite_text_with_ai` at line 518 (`some t` for the stripped response
text `t`, `none` when the call raises).  The source's order is kept:
availability check on the document as read (no reset), mode then tone
validation, the external call, scoring and diff, history insert, then the
debit chosen by comparing the pre-read `rewrites_today` with
`daily_limit`. -/
def rewrite (now : Time) (req : RewriteRequest) (aiResult : Option Str)
    (db : DB) : Except ApiError (RewriteResponse × DB) :=
  let current_user := db.user
  let total_available :=
    (current_user.daily_limit - current_user.rewrites_today) + current_user.credits
  if total_available ≤ 0 then .error .quotaExceeded
  else if req.mode ∉ valid_modes then .error .invalidMode
  else if req.tone ∉ valid_tones then .error .invalidTone
  else
    let original_word_count := (pySplitWs req.text).length
    match aiResult with
    | none => .error .upstreamFailure
    | some rewritten_text =>
      let rewritten_word_count := (pySplitWs rewritten_text).length
      let plagiarism_pct := calculate_plagiarism_percentage req.text rewritten_text
      let changed_sentences := get_changed_sentences req.text rewritten_text
      let history_doc : HistoryDoc :=
        { original_text := req.text
          rewritten_text := rewritten_text
          mode := req.mode
          tone := req.tone
          original_word_count := original_word_count
          rewritten_word_count := rewritten_word_count
          plagiarism_percentage := plagiarism_pct
          timestamp := now }
      let user' :=
        if current_user.rewrites_today < current_user.daily_limit then
          { current_user with rewrites_today := current_user.rewrites_today + 1 }
        else
          { current_user with credits := current_user.credits - 1 }
      .ok ({ rewritten_text := rewritten_text
             original_word_count := original_word_count
             rewritten_word_count := rewritten_word_count
             mode := req.mode
             tone := req.tone
             timestamp := now
             plagiarism_percentage := plagiarism_pct
             changed_sentences := changed_sentences },
           { user := user'
             rewrite_history := db.rewrite_history ++ [history_doc] })

deriving instance DecidableEq for Except

/-- The database slice after a `/rewrite` call: on an `HTTPException`
nothing has been written, on success the updated slice. -/
def dbAfter (db : DB) : Except ApiError (RewriteResponse × DB) → DB
  | .ok p => p.2
  | .error _ => db

/-! ### Payment-status crediting -/

/-- A `payment_transactions` document (server.py lines 655-665), restricted
to the fields `get_payment_status` reads: the stored status and the credit
amount of the purchased package. -/
structure PaymentTransaction where
  credits : ℤ
  payment_status : Str
  deriving Repr, DecidableEq

/-- The database slice `get_payment_status` touches: the matched
transaction and the requesting user's credit balance. -/
structure PayDB where
  tx : PaymentTransaction
  user_credits : ℤ
  deriving Repr, DecidableEq

/-- The possible results of `get_payment_status` on a found transaction. -/
inductive PaymentStatusResult where
  /-- `{"status": "completed", "message": "Credits already added"}`
  (server.py line 692). -/
  | alreadyAdded
  /-- `{"status": "completed", "message": ..., "credits_added": n}`
  (server.py lines 717-721). -/
  | creditsAdded (n : ℤ)
  /-- `{"status": s, "message": ...}` (server.py lines 723-726). -/
  | otherStatus (s : Str)
  /-- The 500 `HTTPException` of server.py line 730. -/
  | checkFailed
  deriving Repr, DecidableEq

/-- `get_payment_status` (server.py lines 674-730) on a found transaction.
`stripeStatus` is the outcome of `stripe_checkout.get_checkout_status`
(`some s` for a returned `payment_status` of `s`, `none` when it raises).
The source's order is kept: the early return on a stored status of
`"paid"`, the unconditional persistence of the fresh Stripe status, and
crediting guarded by the fresh status being `"paid"` while the pre-read
stored status (`transaction["payment_status"]`) was not. -/
def get_payment_status (stripeStatus : Option Str) (db : PayDB) :
    PaymentStatusResult × PayDB :=
  let transaction := db.tx
  if transaction.payment_status = "paid".toList then
    (.alreadyAdded, db)
  else
    match stripeStatus with
    | none => (.checkFailed, db)
    | some st =>
      let db₁ : PayDB := { db with tx := { transaction with payment_status := st } }
      if st = "paid".toList ∧ transaction.payment_status ≠ "paid".toList then
        (.creditsAdded transaction.credits,
         { db₁ with user_credits := db₁.user_credits + transaction.credits })
      else
        (.otherStatus st, db₁)

/-! ### Helper lemmas -/

lemma lt_nextResetDate (now : Time) : now < nextResetDate now := by
  have hD : 0 < usPerDay := by norm_num [usPerDay]
  have h1 : now < now / usPerDay * usPerDay + usPerDay := Nat.lt_div_mul_add hD
  have h2 : now / usPerDay * usPerDay + usPerDay = (now / usPerDay + 1) * usPerDay := by
    ring
  exact lt_of_lt_of_le (h2 ▸ h1) (Nat.le_add_right _ _)

lemma pyRound1_zero : pyRound1 0 = 0 := by norm_num [pyRound1]

lemma pyRound1_hundred : pyRound1 100 = 100 := by norm_num [pyRound1]

/-! ### Theorems for the frozen claims -/

/-- **C5**.  The reset rule is idempotent: applying the reset check twice at
the same instant gives the same document as applying it once, because a
reset installs a `reset_date` strictly in the future of `now`. -/
theorem C5_reset_rule_idempotent :
    ∀ (now : Time) (u : UserDoc),
      applyReset now (applyReset now u) = applyReset now u ∧
      (u.reset_date ≤ now → now < (applyReset now u).reset_date) := by
  intro now u
  have hfresh : ¬ nextResetDate now ≤ now := Nat.not_le.mpr (lt_nextResetDate now)
  by_cases h : u.reset_date ≤ now
  · constructor
    · simp [applyReset, h, hfresh]
    · intro _
      simp [applyReset, h]
      exact lt_nextResetDate now
  · constructor
    · simp [applyReset, h]
    · intro hc
      exact absurd hc h

/-- Witness for C5 on a concrete stale document: the second application at
the same instant is a no-op, and the freshly installed `reset_date` is
strictly in the future. -/
theorem C5_reset_rule_idempotent_witness :
    applyReset 1000000 (applyReset 1000000 ⟨10, 10, 0, 0⟩) =
      applyReset 1000000 ⟨10, 10, 0, 0⟩ ∧
    (1000000 : Time) < (applyReset 1000000 (⟨10, 10, 0, 0⟩ : UserDoc)).reset_date :=
  ⟨(C5_reset_rule_idempotent 1000000 ⟨10, 10, 0, 0⟩).1,
   (C5_reset_rule_idempotent 1000000 ⟨10, 10, 0, 0⟩).2 (by decide)⟩

/-- **C1**.  The availability check of `rewrite` admits a request iff
`(daily_limit - rewrites_today) + credits > 0`; a denial is the
quota-exceeded condition (HTTP 429, distinct from the validation 400s and
the authorization 401), and an account with `daily_limit=10`,
`rewrites_today=10`, `credits=0` is always denied. -/
theorem C1_availability_check :
    (∀ (now : Time) (req : RewriteRequest) (ai : Option Str) (db : DB),
      rewrite now req ai db = .error .quotaExceeded ↔
        (db.user.daily_limit - db.user.rewrites_today) + db.user.credits ≤ 0) ∧
    statusCode .quotaExceeded = 429 ∧
    statusCode .invalidMode = 400 ∧ statusCode .invalidTone = 400 ∧
    statusCode .unauthorized = 401 ∧
    (∀ (now : Time) (req : RewriteRequest) (ai : Option Str) (r : Time)
        (hist : List HistoryDoc),
      rewrite now req ai ⟨⟨10, 10, 0, r⟩, hist⟩ = .error .quotaExceeded) := by
  have key : ∀ (now : Time) (req : RewriteRequest) (ai : Option Str) (db : DB),
      rewrite now req ai db = .error .quotaExceeded ↔
        (db.user.daily_limit - db.user.rewrites_today) + db.user.credits ≤ 0 := by
    intro now req ai db
    by_cases h1 : (db.user.daily_limit - db.user.rewrites_today) + db.user.credits ≤ 0
    · simp [rewrite, h1]
    · by_cases h2 : req.mode ∈ valid_modes
      · by_cases h3 : req.tone ∈ valid_tones
        · cases ai <;> simp [rewrite, h1, h2, h3]
        · simp [rewrite, h1, h2, h3]
      · simp [rewrite, h1, h2]
  refine ⟨key, rfl, rfl, rfl, rfl, ?_⟩
  intro now req ai r hist
  exact (key now req ai ⟨⟨10, 10, 0, r⟩, hist⟩).mpr (by norm_num)

/-- **C3**.  A sequential execution of the check-then-debit sequence of
`rewrite` preserves `credits ≥ 0`: starting from a document with
`credits ≥ 0` and `rewrites_today ≥ 0`, the document left behind by one
call still has `credits ≥ 0` (when the debit falls to the credit bucket,
the passed availability check forces `credits ≥ 1`). -/
theorem C3_credits_nonneg_preserved :
    ∀ (now : Time) (req : RewriteRequest) (ai : Option Str) (db : DB),
      0 ≤ db.user.credits → 0 ≤ db.user.rewrites_today →
      0 ≤ (dbAfter db (rewrite now req ai db)).user.credits := by
  intro now req ai db hc _
  by_cases h1 : (db.user.daily_limit - db.user.rewrites_today) + db.user.credits ≤ 0
  · simpa [rewrite, h1, dbAfter] using hc
  · by_cases h2 : req.mode ∈ valid_modes
    · by_cases h3 : req.tone ∈ valid_tones
      · cases ai with
        | none => simpa [rewrite, h1, h2, h3, dbAfter] using hc
        | some t =>
          by_cases h4 : db.user.rewrites_today < db.user.daily_limit
          · simpa [rewrite, h1, h2, h3, h4, dbAfter] using hc
          · have hone : 1 ≤ db.user.credits := by omega
            simp [rewrite, h1, h2, h3, h4, dbAfter]
            omega
      · simpa [rewrite, h1, h2, h3, dbAfter] using hc
    · simpa [rewrite, h1, h2, dbAfter] using hc

/-- Witness for C3 at `daily_limit=10`, `rewrites_today=10`, `credits=1`:
the debit falls to the credit bucket and the balance stays nonnegative. -/
theorem C3_credits_nonneg_preserved_witness :
    0 ≤ (dbAfter ⟨⟨10, 10, 1, 0⟩, []⟩
      (rewrite 0 ⟨"a".toList, "standard".toList, "formal".toList⟩
        (some "b".toList) ⟨⟨10, 10, 1, 0⟩, []⟩)).user.credits :=
  C3_credits_nonneg_preserved 0 ⟨"a".toList, "standard".toList, "formal".toList⟩
    (some "b".toList) ⟨⟨10, 10, 1, 0⟩, []⟩ (by norm_num) (by norm_num)

/-- A concrete request with a valid mode and tone, for concrete runs. -/
def wReq : RewriteRequest := ⟨"a".toList, "standard".toList, "formal".toList⟩

/-- The spec's debit example, step 0: `daily_limit=10, rewrites_today=9, credits=5`. -/
def dbC2a : DB := ⟨⟨10, 9, 5, 0⟩, []⟩

/-- The spec's debit example after one successful rewrite. -/
def dbC2b : DB := dbAfter dbC2a (rewrite 0 wReq (some "b".toList) dbC2a)

/-- The spec's debit example after two successful rewrites. -/
def dbC2c : DB := dbAfter dbC2b (rewrite 0 wReq (some "b".toList) dbC2b)

/-- **C2**.  A successful rewrite debits the quota bucket first: when
`rewrites_today < daily_limit` it increments `rewrites_today` and leaves
`credits` alone, otherwise it decrements `credits` and leaves
`rewrites_today` alone; and the spec's worked example from
`rewrites_today=9, daily_limit=10, credits=5`. -/
theorem C2_debit_bucket_order :
    (∀ (now : Time) (req : RewriteRequest) (ai : Option Str) (db : DB),
      (rewrite now req ai db).isOk = true →
      (dbAfter db (rewrite now req ai db)).user =
        (if db.user.rewrites_today < db.user.daily_limit then
          { db.user with rewrites_today := db.user.rewrites_today + 1 }
        else
          { db.user with credits := db.user.credits - 1 })) ∧
    dbC2b.user.rewrites_today = 10 ∧ dbC2b.user.credits = 5 ∧
    dbC2c.user.rewrites_today = 10 ∧ dbC2c.user.credits = 4 := by
  refine ⟨?_, by decide, by decide, by decide, by decide⟩
  intro now req ai db hok
  by_cases h1 : (db.user.daily_limit - db.user.rewrites_today) + db.user.credits ≤ 0
  · simp [rewrite, h1, Except.isOk, Except.toBool] at hok
  · by_cases h2 : req.mode ∈ valid_modes
    · by_cases h3 : req.tone ∈ valid_tones
      · cases ai with
        | none => simp [rewrite, h1, h2, h3, Except.isOk, Except.toBool] at hok
        | some t => simp [rewrite, h1, h2, h3, dbAfter]
      · simp [rewrite, h1, h2, h3, Except.isOk, Except.toBool] at hok
    · simp [rewrite, h1, h2, Except.isOk, Except.toBool] at hok

/-- Witness for C2: a run with quota still available increments
`rewrites_today` and leaves `credits` untouched. -/
theorem C2_debit_bucket_order_witness :
    (dbAfter dbC2a (rewrite 0 wReq (some "b".toList) dbC2a)).user =
      (if (dbC2a.user.rewrites_today : ℤ) < dbC2a.user.daily_limit then
        { dbC2a.user with rewrites_today := dbC2a.user.rewrites_today + 1 }
      else
        { dbC2a.user with credits := dbC2a.user.credits - 1 }) :=
  C2_debit_bucket_order.1 0 wReq (some "b".toList) dbC2a (by decide)

/-- **C10**.  In `rewrite` the quota check precedes mode/tone validation:
with `available ≤ 0` every request (invalid mode or not) is denied with
quota-exceeded; with `available > 0` an invalid mode (resp. tone) fails
with the 400 invalid-argument error whose detail names the allowed set,
independently of the external call's outcome and without any state
change. -/
theorem C10_quota_check_precedes_validation :
    (∀ (now : Time) (req : RewriteRequest) (ai : Option Str) (db : DB),
      ((db.user.daily_limit - db.user.rewrites_today) + db.user.credits ≤ 0 →
        rewrite now req ai db = .error .quotaExceeded) ∧
      (0 < (db.user.daily_limit - db.user.rewrites_today) + db.user.credits →
        req.mode ∉ valid_modes →
        rewrite now req ai db = .error .invalidMode ∧
        dbAfter db (rewrite now req ai db) = db) ∧
      (0 < (db.user.daily_limit - db.user.rewrites_today) + db.user.credits →
        req.mode ∈ valid_modes → req.tone ∉ valid_tones →
        rewrite now req ai db = .error .invalidTone ∧
        dbAfter db (rewrite now req ai db) = db)) ∧
    statusCode .quotaExceeded = 429 ∧ statusCode .invalidMode = 400 ∧
    statusCode .invalidTone = 400 ∧
    errorDetail .invalidMode =
      "Invalid mode. Choose from: light, standard, aggressive, human-like".toList ∧
    errorDetail .invalidTone =
      "Invalid tone. Choose from: academic, professional, casual, creative, formal".toList := by
  refine ⟨?_, rfl, rfl, rfl, by decide, by decide⟩
  intro now req ai db
  refine ⟨fun h1 => by simp [rewrite, h1], fun h1 h2 => ?_, fun h1 h2 h3 => ?_⟩
  · have h1' : ¬ (db.user.daily_limit - db.user.rewrites_today) + db.user.credits ≤ 0 := by
      omega
    exact ⟨by simp [rewrite, h1', h2], by simp [rewrite, h1', h2, dbAfter]⟩
  · have h1' : ¬ (db.user.daily_limit - db.user.rewrites_today) + db.user.credits ≤ 0 := by
      omega
    exact ⟨by simp [rewrite, h1', h2, h3], by simp [rewrite, h1', h2, h3, dbAfter]⟩

/-- Witness for C10: with the quota exhausted an invalid mode still yields
quota-exceeded; with quota available the same invalid mode yields the 400,
and an invalid tone likewise. -/
theorem C10_quota_check_precedes_validation_witness :
    rewrite 0 ⟨"a".toList, "bogus".toList, "formal".toList⟩ none ⟨⟨10, 10, 0, 0⟩, []⟩ =
      .error .quotaExceeded ∧
    rewrite 0 ⟨"a".toList, "bogus".toList, "formal".toList⟩ none ⟨⟨10, 9, 0, 0⟩, []⟩ =
      .error .invalidMode ∧
    rewrite 0 ⟨"a".toList, "standard".toList, "bogus".toList⟩ none ⟨⟨10, 9, 0, 0⟩, []⟩ =
      .error .invalidTone :=
  ⟨(C10_quota_check_precedes_validation.1 0 _ none _).1 (by norm_num),
   ((C10_quota_check_precedes_validation.1 0 _ none _).2.1 (by norm_num) (by decide)).1,
   ((C10_quota_check_precedes_validation.1 0 _ none _).2.2 (by norm_num) (by decide)
     (by decide)).1⟩

/-- **C8**.  When the external AI call fails (`aiResult = none`) the whole
operation fails — the database slice (history and ledger fields) is left
exactly as it was — and, when the earlier checks pass, the error is the
upstream-dependency 500. -/
theorem C8_failed_ai_call_atomic :
    (∀ (now : Time) (req : RewriteRequest) (db : DB),
      (rewrite now req none db).isOk = false ∧
      dbAfter db (rewrite now req none db) = db ∧
      (0 < (db.user.daily_limit - db.user.rewrites_today) + db.user.credits →
        req.mode ∈ valid_modes → req.tone ∈ valid_tones →
        rewrite now req none db = .error .upstreamFailure)) ∧
    statusCode .upstreamFailure = 500 := by
  refine ⟨?_, rfl⟩
  intro now req db
  by_cases h1 : (db.user.daily_limit - db.user.rewrites_today) + db.user.credits ≤ 0
  · exact ⟨by simp [rewrite, h1, Except.isOk, Except.toBool], by simp [rewrite, h1, dbAfter],
      fun hav _ _ => absurd h1 (not_le.mpr hav)⟩
  · by_cases h2 : req.mode ∈ valid_modes
    · by_cases h3 : req.tone ∈ valid_tones
      · exact ⟨by simp [rewrite, h1, h2, h3, Except.isOk, Except.toBool],
          by simp [rewrite, h1, h2, h3, dbAfter],
          fun _ _ _ => by simp [rewrite, h1, h2, h3]⟩
      · exact ⟨by simp [rewrite, h1, h2, h3, Except.isOk, Except.toBool],
          by simp [rewrite, h1, h2, h3, dbAfter],
          fun _ _ h3' => absurd h3' h3⟩
    · exact ⟨by simp [rewrite, h1, h2, Except.isOk, Except.toBool],
        by simp [rewrite, h1, h2, dbAfter],
        fun _ h2' _ => absurd h2' h2⟩

/-- Witness for C8: a failed AI call on a fresh account is the upstream
error and leaves the database slice untouched. -/
theorem C8_failed_ai_call_atomic_witness :
    rewrite 0 wReq none ⟨⟨10, 0, 0, 0⟩, []⟩ = .error .upstreamFailure :=
  (C8_failed_ai_call_atomic.1 0 wReq ⟨⟨10, 0, 0, 0⟩, []⟩).2.2 (by norm_num)
    (by decide) (by decide)

/-- **C9**.  Credit top-up is idempotent per transaction: a stored status
of `"paid"` short-circuits with no mutation; two consecutive status
queries of a pending transaction that Stripe reports paid credit the
account exactly once (the second call is the short-circuit); and the
balance changes only on the transition from a non-paid stored status to a
Stripe status of `"paid"`. -/
theorem C9_credit_topup_idempotent :
    (∀ (s : Option Str) (db : PayDB), db.tx.payment_status = "paid".toList →
      get_payment_status s db = (.alreadyAdded, db)) ∧
    (∀ db : PayDB, db.tx.payment_status ≠ "paid".toList →
      (get_payment_status (some "paid".toList)
          (get_payment_status (some "paid".toList) db).2).2.user_credits =
        db.user_credits + db.tx.credits ∧
      (get_payment_status (some "paid".toList)
          (get_payment_status (some "paid".toList) db).2).2 =
        (get_payment_status (some "paid".toList) db).2 ∧
      (get_payment_status (some "paid".toList)
          (get_payment_status (some "paid".toList) db).2).1 = .alreadyAdded) ∧
    (∀ (s : Option Str) (db : PayDB),
      (get_payment_status s db).2.user_credits ≠ db.user_credits →
      db.tx.payment_status ≠ "paid".toList ∧ s = some "paid".toList) := by
  refine ⟨fun s db h => by simp [get_payment_status, h], fun db h => ?_, fun s db hne => ?_⟩
  · have h' : ¬ db.tx.payment_status = ['p', 'a', 'i', 'd'] := by simpa using h
    simp [get_payment_status, h']
  · by_cases h : db.tx.payment_status = ['p', 'a', 'i', 'd']
    · simp [get_payment_status, h] at hne
    · cases s with
      | none => simp [get_payment_status, h] at hne
      | some st =>
        by_cases hst : st = ['p', 'a', 'i', 'd']
        · exact ⟨by simpa using h, by simp [hst]⟩
        · simp [get_payment_status, h, hst] at hne

/-- Witness for C9: an already-paid transaction short-circuits without
crediting, and a pending transaction queried twice is credited once. -/
theorem C9_credit_topup_idempotent_witness :
    get_payment_status (some "paid".toList) ⟨⟨20, "paid".toList⟩, 7⟩ =
      (.alreadyAdded, ⟨⟨20, "paid".toList⟩, 7⟩) ∧
    (get_payment_status (some "paid".toList)
        (get_payment_status (some "paid".toList)
          ⟨⟨20, "pending".toList⟩, 7⟩).2).2.user_credits = 7 + 20 :=
  ⟨C9_credit_topup_idempotent.1 (some "paid".toList) ⟨⟨20, "paid".toList⟩, 7⟩ (by decide),
   (C9_credit_topup_idempotent.2.1 ⟨⟨20, "pending".toList⟩, 7⟩ (by decide)).1⟩

/-- A stale account document: `reset_date` at the epoch (in the past of
any later instant) with the daily quota exhausted and no credits. -/
def staleUser : UserDoc := ⟨10, 10, 0, 0⟩

/-- The database slice holding `staleUser` and no history. -/
def staleDB : DB := ⟨staleUser, []⟩

/-- **C4**, counterexample.  One microsecond after the epoch the stale
account's `reset_date` has passed, yet `rewrite` denies it with
quota-exceeded on the basis of the pre-reset `rewrites_today` count; the
same request succeeds if the reset rule is applied first — so the
`rewrite` endpoint does not run the reset rule before its availability
check. -/
theorem C4_counterexample_no_reset_before_check :
    staleUser.reset_date ≤ 1000000 ∧
    rewrite 1000000 wReq (some "b".toList) staleDB = .error .quotaExceeded ∧
    (rewrite 1000000 wReq (some "b".toList)
      ⟨applyReset 1000000 staleUser, []⟩).isOk = true := by
  refine ⟨by decide, by decide, by decide⟩

/-- **C4**, amended.  `rewrite` does not apply the reset rule at all: an
account whose `reset_date` has passed is still denied whenever the stored
`rewrites_today` exhausts the availability sum.  The reset rule runs in
`get_usage` (and `login`), where it is applied and persisted before the
usage summary is composed. -/
theorem C4_amended_reset_only_in_login_and_usage :
    (∀ (now : Time) (req : RewriteRequest) (ai : Option Str) (db : DB),
      db.user.reset_date ≤ now →
      (db.user.daily_limit - db.user.rewrites_today) + db.user.credits ≤ 0 →
      rewrite now req ai db = .error .quotaExceeded) ∧
    (∀ (now : Time) (u : UserDoc),
      (get_usage now u).2 = applyReset now u ∧
      (get_usage now u).1.rewrites_today = (applyReset now u).rewrites_today ∧
      (u.reset_date ≤ now →
        (get_usage now u).1.rewrites_today = 0 ∧
        (get_usage now u).2.reset_date = nextResetDate now)) := by
  refine ⟨fun now req ai db _ h => by simp [rewrite, h], fun now u => ?_⟩
  refine ⟨rfl, rfl, fun h => ?_⟩
  constructor <;> simp [get_usage, applyReset, h]

/-- Witness for the amended C4: the stale account is denied by `rewrite`
at an instant past its `reset_date`, while `get_usage` at the same
instant reports the reset count. -/
theorem C4_amended_reset_only_in_login_and_usage_witness :
    rewrite 1000000 wReq none staleDB = .error .quotaExceeded ∧
    (get_usage 1000000 staleUser).1.rewrites_today = 0 :=
  ⟨C4_amended_reset_only_in_login_and_usage.1 1000000 wReq none staleDB
      (by decide) (by decide),
   ((C4_amended_reset_only_in_login_and_usage.2 1000000 staleUser).2.2 (by decide)).1⟩

lemma calc_plagiarism_eq (o r : Str) (h : wordSet o ≠ ∅) :
    calculate_plagiarism_percentage o r =
      pyRound1 (max 0 (min 100
        (100 - ((wordSet o ∩ wordSet r).card : ℚ) / ((wordSet o).card : ℚ) * 100))) := by
  simp [calculate_plagiarism_percentage, h]

/-- **C6**.  The similarity scorer is the stated pure function of the two
texts' lower-cased word sets: an empty original word set scores `0.0`;
identical word sets score `0.0`; disjoint vocabularies (with a nonempty
original, which the empty-case rule otherwise overrides) score `100.0`. -/
theorem C6_similarity_scorer :
    ∀ o r : Str,
      (wordSet o = ∅ → calculate_plagiarism_percentage o r = 0) ∧
      (wordSet o = wordSet r → calculate_plagiarism_percentage o r = 0) ∧
      (wordSet o ≠ ∅ → wordSet o ∩ wordSet r = ∅ →
        calculate_plagiarism_percentage o r = 100) := by
  intro o r
  refine ⟨fun h => by simp [calculate_plagiarism_percentage, h], fun h => ?_,
    fun h hd => ?_⟩
  · by_cases h0 : wordSet o = ∅
    · simp [calculate_plagiarism_percentage, h0]
    · have hcard : ((wordSet o).card : ℚ) ≠ 0 := by
        exact_mod_cast fun hc => h0 (Finset.card_eq_zero.mp (by exact_mod_cast hc))
      rw [calc_plagiarism_eq o r h0, ← h, Finset.inter_self, div_self hcard,
        one_mul, sub_self, min_eq_right (by norm_num : (0:ℚ) ≤ 100), max_self]
      exact pyRound1_zero
  · rw [calc_plagiarism_eq o r h, hd]
    rw [show ((∅ : Finset Str).card : ℚ) = 0 by simp, zero_div, zero_mul,
      sub_zero, min_self, max_eq_right (by norm_num : (0:ℚ) ≤ 100)]
    exact pyRound1_hundred

/-- Witness for C6: texts with the same vocabulary score `0.0`; texts with
disjoint vocabularies score `100.0`; the empty original scores `0.0`. -/
theorem C6_similarity_scorer_witness :
    calculate_plagiarism_percentage "Hello world".toList "world hello".toList = 0 ∧
    calculate_plagiarism_percentage "hello world".toList "foo bar".toList = 100 ∧
    calculate_plagiarism_percentage "".toList "foo".toList = 0 :=
  ⟨(C6_similarity_scorer _ _).2.1 (by decide),
   (C6_similarity_scorer _ _).2.2 (by decide) (by decide),
   (C6_similarity_scorer _ _).1 (by decide)⟩

lemma sentences_ne_nil (s : Str) : ∀ t ∈ sentences s, t ≠ [] := by
  intro t ht
  have h := List.mem_filter.mp ht
  simpa using h.2

lemma range_filterMap_eq_zip_filterMap (A : List Str) :
    ∀ (B : List Str), (∀ x ∈ A, x ≠ []) → (∀ x ∈ B, x ≠ []) →
      ((List.range (max A.length B.length)).filterMap (fun i =>
        if A.getD i [] ≠ [] ∧ B.getD i [] ≠ [] ∧
            toLower (A.getD i []) ≠ toLower (B.getD i []) then
          some ⟨A.getD i [], B.getD i [], "changed".toList⟩
        else none) : List ChangedPair) =
      (A.zip B).filterMap (fun p =>
        if toLower p.1 ≠ toLower p.2 then some ⟨p.1, p.2, "changed".toList⟩
        else none) := by
  induction A with
  | nil =>
    intro B _ _
    refine Eq.trans (List.filterMap_eq_nil_iff.mpr ?_) ?_
    · intro i _
      simp [List.getD_nil]
    · rfl
  | cons a A ih =>
    intro B hA hB
    cases B with
    | nil =>
      refine Eq.trans (List.filterMap_eq_nil_iff.mpr ?_) ?_
      · intro i _
        simp [List.getD_nil]
      · rfl
    | cons b B =>
      have ha : a ≠ [] := hA a (List.mem_cons_self a A)
      have hb : b ≠ [] := hB b (List.mem_cons_self b B)
      have hA' : ∀ x ∈ A, x ≠ [] := fun x hx => hA x (List.mem_cons_of_mem a hx)
      have hB' : ∀ x ∈ B, x ≠ [] := fun x hx => hB x (List.mem_cons_of_mem b hx)
      have hlen : max (a :: A).length (b :: B).length = max A.length B.length + 1 := by
        simp [List.length_cons, Nat.succ_max_succ]
      rw [hlen, List.range_succ_eq_map, List.filterMap_cons, List.filterMap_map,
        List.zip_cons_cons, List.filterMap_cons]
      by_cases hab : toLower a = toLower b
      · simp only [List.getD_cons_zero, List.getD_cons_succ, Function.comp_def,
          ne_eq, hab, not_true_eq_false, and_false, if_false]
        exact ih B hA' hB'
      · simp only [List.getD_cons_zero, List.getD_cons_succ, Function.comp_def,
          ne_eq, ha, hb, hab, not_false_eq_true, and_true, true_and, if_true]
        exact congrArg (List.cons _) (ih B hA' hB')

/-- **C7**.  The sentence diff extractor emits, in position order, exactly
one changed-pair record for each position where a (nonempty, trimmed)
fragment exists on both sides and the two fragments differ
case-insensitively (the `zip` of the two fragment lists drops positions
where one side is exhausted); and the spec's worked example. -/
theorem C7_sentence_diff :
    (∀ o r : Str,
      get_changed_sentences o r =
        ((sentences o).zip (sentences r)).filterMap (fun p =>
          if toLower p.1 ≠ toLower p.2 then some ⟨p.1, p.2, "changed".toList⟩
          else none)) ∧
    get_changed_sentences "A. B. C.".toList "A. X. C.".toList =
      [⟨"B".toList, "X".toList, "changed".toList⟩] := by
  refine ⟨fun o r => ?_, by decide⟩
  exact range_filterMap_eq_zip_filterMap (sentences o) (sentences r)
    (sentences_ne_nil o) (sentences_ne_nil r)

end PlagiFree
